import Mathlib

/-!
Formal model of the session-state component of the repository
(`src/bot/state.py`): the dataclass `SessionState` and the `StateManager`
persistence layer, embedded shallowly in Lean.

Modelling conventions:
* Wall-clock timestamps (Python `time.time()` floats) are modelled at
  integer-second granularity as `Int`; each operation receives the value the
  corresponding `time.time()` call would return as an explicit `now`
  argument, and `datetime.now().strftime("%H:%M:%S")` in `end_tool` is an
  explicit `clock : String` argument.
* The JSON text layer is abstracted at the parse level: the backing store
  holds either nothing, an unreadable file, bytes that fail UTF-8 decoding,
  bytes that fail JSON parsing, or a parsed `JValue`.  `json.dump` followed
  by `json.load` of a well-formed value is the identity at this level.
* Python exceptions are modelled with `Except PyErr`; an `Except.error`
  result means the Python operation raises that exception to its caller.
* Python `int` is `Int`; Python `//` and `%` agree with Lean's `Int` `/`
  and `%` on the non-negative operands where the code uses them.
-/

/-- Parsed JSON values as produced by Python's `json.load` (numbers at
integer granularity, see the module conventions). -/
inductive JValue : Type where
  | null : JValue
  | bool (b : Bool) : JValue
  | num (n : Int) : JValue
  | str (s : String) : JValue
  | arr (xs : List JValue) : JValue
  | obj (kvs : List (String × JValue)) : JValue

/-- The exceptions relevant to the control flow of `state.py`, plus one
sentinel.  `outsideModel` is not a Python exception: it marks execution
entering a path this typed embedding does not model — a stored value of a
valid key lying outside its declared field type.  Python's dataclass
constructor accepts such a value unvalidated and returns an ill-typed
state; subsequent operations on it succeed or raise `TypeError` at
value-dependent points (e.g. with a stored `total_tools` of `null`,
`end_tool` raises an uncaught `TypeError` at `total_tools += 1`, while
`end_session` and `start_tool` save the value back and return).  `load`
does not catch the sentinel, so no theorem in this file can mistake that
path for success or for silent recovery; no theorem mentions it. -/
inductive PyErr : Type where
  | osError : PyErr
  | unicodeDecodeError : PyErr
  | jsonDecodeError : PyErr
  | typeError : PyErr
  | outsideModel : PyErr
deriving DecidableEq

/-- The dict built by `StateManager.start_tool` and stored in
`SessionState.current_tool`: keys `name`, `input`, `start_time`. -/
structure CurrentTool : Type where
  name : String
  input : List (String × JValue)
  start_time : Int

/-- The dict appended to `recent_tools` by `StateManager.end_tool`:
keys `name`, `success`, `time`, `output`. -/
structure ToolRecord : Type where
  name : String
  success : Bool
  time : String
  output : String

/-- The `SessionState` dataclass of `state.py`, with its field defaults. -/
structure SessionState : Type where
  session_id : String := ""
  project_dir : String := ""
  start_time : Int := 0
  end_time : Option Int := none
  is_active : Bool := false
  total_tools : Int := 0
  successful_tools : Int := 0
  failed_tools : Int := 0
  current_tool : Option CurrentTool := none
  recent_tools : List ToolRecord := []
  last_update : Int := 0

/-- `SessionState.duration_str` (a `@property` in the source, so it reads the
clock; `now` is the value `time.time()` would return).  Mirrors:
`if self.start_time == 0: return "N/A"`, `end = self.end_time or time.time()`
(note Python `or`: an `end_time` equal to `0` is falsy and falls back to the
clock), `duration = int(end - self.start_time)`, then the three buckets. -/
def SessionState.duration_str (s : SessionState) (now : Int) : String :=
  if s.start_time = 0 then "N/A"
  else
    let e : Int :=
      match s.end_time with
      | some t => if t = 0 then now else t
      | none => now
    let duration := e - s.start_time
    if duration < 60 then
      toString duration ++ "s"
    else if duration < 3600 then
      toString (duration / 60) ++ "m " ++ toString (duration % 60) ++ "s"
    else
      toString (duration / 3600) ++ "h " ++ toString (duration % 3600 / 60) ++ "m"

/-- Serialization of an optional timestamp (`None` becomes JSON `null`). -/
def optIntToJ : Option Int → JValue
  | none => .null
  | some n => .num n

/-- Serialization of a `current_tool` dict (as `dataclasses.asdict` /
`json.dump` render the plain dict built by `start_tool`). -/
def CurrentTool.toJ (c : CurrentTool) : JValue :=
  .obj [("name", .str c.name), ("input", .obj c.input),
        ("start_time", .num c.start_time)]

/-- Serialization of an optional `current_tool`. -/
def optCurrentToolToJ : Option CurrentTool → JValue
  | none => .null
  | some c => c.toJ

/-- Serialization of one `recent_tools` entry. -/
def ToolRecord.toJ (r : ToolRecord) : JValue :=
  .obj [("name", .str r.name), ("success", .bool r.success),
        ("time", .str r.time), ("output", .str r.output)]

/-- `SessionState.to_dict`: `dataclasses.asdict(self)`, fields in
declaration order. -/
def SessionState.to_dict (s : SessionState) : JValue :=
  .obj [("session_id", .str s.session_id),
        ("project_dir", .str s.project_dir),
        ("start_time", .num s.start_time),
        ("end_time", optIntToJ s.end_time),
        ("is_active", .bool s.is_active),
        ("total_tools", .num s.total_tools),
        ("successful_tools", .num s.successful_tools),
        ("failed_tools", .num s.failed_tools),
        ("current_tool", optCurrentToolToJ s.current_tool),
        ("recent_tools", .arr (s.recent_tools.map ToolRecord.toJ)),
        ("last_update", .num s.last_update)]

/-- The field names of the `SessionState` dataclass, the keyword arguments
`SessionState(**data)` accepts. -/
def fieldNames : List String :=
  ["session_id", "project_dir", "start_time", "end_time", "is_active",
   "total_tools", "successful_tools", "failed_tools", "current_tool",
   "recent_tools", "last_update"]

/-- Dict lookup (JSON objects coming from `json.load` have distinct keys). -/
def jLookup (kvs : List (String × JValue)) (k : String) : Option JValue :=
  match kvs with
  | [] => none
  | (k2, v) :: rest => if k2 = k then some v else jLookup rest k

/-- Decoder for a string-valued field. -/
def decStr : JValue → Option String
  | .str s => some s
  | _ => none

/-- Decoder for a number-valued field. -/
def decInt : JValue → Option Int
  | .num n => some n
  | _ => none

/-- Decoder for an optional-number field (`null` or a number). -/
def decOptInt : JValue → Option (Option Int)
  | .null => some none
  | .num n => some (some n)
  | _ => none

/-- Decoder for a boolean field. -/
def decBool : JValue → Option Bool
  | .bool b => some b
  | _ => none

/-- Decoder for the `current_tool` field (`null` or the dict shape written
by `start_tool`). -/
def decCurrentTool : JValue → Option (Option CurrentTool)
  | .null => some none
  | .obj [("name", .str n), ("input", .obj i), ("start_time", .num t)] =>
      some (some ⟨n, i, t⟩)
  | _ => none

/-- Decoder for one `recent_tools` entry (the dict shape written by
`end_tool`). -/
def decToolRecord : JValue → Option ToolRecord
  | .obj [("name", .str n), ("success", .bool b), ("time", .str t),
          ("output", .str o)] => some ⟨n, b, t, o⟩
  | _ => none

/-- Decoder for a list of `recent_tools` entries. -/
def decRecentList : List JValue → Option (List ToolRecord)
  | [] => some []
  | v :: rest => do
      let r ← decToolRecord v
      let rs ← decRecentList rest
      pure (r :: rs)

/-- Decoder for the `recent_tools` field. -/
def decRecent : JValue → Option (List ToolRecord)
  | .arr xs => decRecentList xs
  | _ => none

/-- Fetch one keyword argument: the stored value if the key is present,
the dataclass default otherwise. -/
def getField {α : Type} (kvs : List (String × JValue)) (k : String)
    (dec : JValue → Option α) (dflt : α) : Option α :=
  match jLookup kvs k with
  | none => some dflt
  | some v => dec v

/-- Construct a `SessionState` from keyword arguments whose keys are all
field names.  A `none` result marks a stored value outside the declared
field type: the Python dataclass constructor performs no runtime type
checking and accepts such a value unvalidated, producing an ill-typed
state outside this embedding's state space.  `from_dict` surfaces this
branch as the uncaught `PyErr.outsideModel` sentinel rather than
modelling it (see `PyErr`). -/
def buildState (kvs : List (String × JValue)) : Option SessionState := do
  let session_id ← getField kvs "session_id" decStr ""
  let project_dir ← getField kvs "project_dir" decStr ""
  let start_time ← getField kvs "start_time" decInt 0
  let end_time ← getField kvs "end_time" decOptInt none
  let is_active ← getField kvs "is_active" decBool false
  let total_tools ← getField kvs "total_tools" decInt 0
  let successful_tools ← getField kvs "successful_tools" decInt 0
  let failed_tools ← getField kvs "failed_tools" decInt 0
  let current_tool ← getField kvs "current_tool" decCurrentTool none
  let recent_tools ← getField kvs "recent_tools" decRecent []
  let last_update ← getField kvs "last_update" decInt 0
  pure ⟨session_id, project_dir, start_time, end_time, is_active, total_tools,
        successful_tools, failed_tools, current_tool, recent_tools, last_update⟩

/-- `SessionState.from_dict(data)`, i.e. `cls(**data)`: raises `TypeError`
when `data` is not a mapping or contains a key that is not a dataclass
field; otherwise fills absent fields with their defaults.  A present value
of the wrong type is accepted unvalidated by Python; that path is outside
the typed embedding and yields the uncaught `PyErr.outsideModel` sentinel
(see `PyErr`), never a caught exception. -/
def SessionState.from_dict (v : JValue) : Except PyErr SessionState :=
  match v with
  | .obj kvs =>
      if (kvs.map Prod.fst).all (fun k => fieldNames.contains k) then
        match buildState kvs with
        | some s => .ok s
        | none => .error .outsideModel
      else .error .typeError
  | _ => .error .typeError

/-- The observable conditions of the backing store file
(`Config.STATE_FILE`). -/
inductive Store : Type where
  | absent : Store
  | unreadable : Store
  | invalidUtf8 : Store
  | invalidJson : Store
  | json (v : JValue) : Store

/-- The file system as the `StateManager` sees it: the store's condition
plus whether writing the store path succeeds. -/
structure FileSys : Type where
  store : Store
  writable : Bool := true

/-- `StateManager.load`: returns the default state when the file does not
exist; otherwise opens and JSON-decodes it, catching exactly
`json.JSONDecodeError` and `TypeError` (an `OSError` from `open`, or a
`UnicodeDecodeError` from reading non-UTF-8 bytes, is not caught and
propagates; the `outsideModel` sentinel likewise propagates, keeping the
unmodelled ill-typed-value path out of every success theorem). -/
def StateManager.load (fs : FileSys) : Except PyErr SessionState :=
  match fs.store with
  | .absent => .ok {}
  | .unreadable => .error .osError
  | .invalidUtf8 => .error .unicodeDecodeError
  | .invalidJson => .ok {}
  | .json v =>
      match SessionState.from_dict v with
      | .ok s => .ok s
      | .error .jsonDecodeError => .ok {}
      | .error .typeError => .ok {}
      | .error e => .error e

/-- `StateManager.save`: sets `state.last_update = time.time()` and then
overwrites the store with the serialized state; an `OSError` from opening
the path for writing is not caught.  Returns the mutated state (the Python
callers return the same object they passed to `save`). -/
def StateManager.save (state : SessionState) (now : Int) (fs : FileSys) :
    Except PyErr (SessionState × FileSys) :=
  if fs.writable then
    let state2 := { state with last_update := now }
    .ok (state2, { fs with store := .json state2.to_dict })
  else
    .error .osError

/-- `StateManager.start_session`: builds a fresh state (remaining fields at
their dataclass defaults) and saves it; it never reads the store. -/
def StateManager.start_session (session_id project_dir : String) (now : Int)
    (fs : FileSys) : Except PyErr (SessionState × FileSys) :=
  StateManager.save
    { session_id := session_id,
      project_dir := project_dir,
      start_time := now,
      is_active := true,
      total_tools := 0,
      successful_tools := 0,
      failed_tools := 0,
      recent_tools := [] } now fs

/-- `StateManager.end_session` (the `reason` argument is unused by the
source beyond its default). -/
def StateManager.end_session (_reason : String) (now : Int) (fs : FileSys) :
    Except PyErr (SessionState × FileSys) := do
  let state ← StateManager.load fs
  StateManager.save
    { state with
      is_active := false,
      end_time := some now,
      current_tool := none } now fs

/-- `StateManager.start_tool`. -/
def StateManager.start_tool (tool_name : String)
    (tool_input : List (String × JValue)) (now : Int) (fs : FileSys) :
    Except PyErr (SessionState × FileSys) := do
  let state ← StateManager.load fs
  StateManager.save
    { state with current_tool := some ⟨tool_name, tool_input, now⟩ } now fs

/-- Python `lst[-10:]` generalized: the suffix of the last `n` elements
(the whole list when it is shorter than `n`). -/
def lastN {α : Type} (n : Nat) (xs : List α) : List α :=
  xs.drop (xs.length - n)

/-- `StateManager.end_tool`: increments the counters, appends a record with
the output truncated to 100 characters (`output[:100] if output else ""`,
which equals `output[:100]` also for the empty string), keeps the last 10
records, clears `current_tool`, saves. -/
def StateManager.end_tool (tool_name : String) (success : Bool)
    (output : String) (now : Int) (clock : String) (fs : FileSys) :
    Except PyErr (SessionState × FileSys) := do
  let state ← StateManager.load fs
  let state := { state with total_tools := state.total_tools + 1 }
  let state :=
    if success then
      { state with successful_tools := state.successful_tools + 1 }
    else
      { state with failed_tools := state.failed_tools + 1 }
  let record : ToolRecord :=
    { name := tool_name, success := success, time := clock,
      output := output.take 100 }
  StateManager.save
    { state with
      recent_tools := lastN 10 (state.recent_tools ++ [record]),
      current_tool := none } now fs

/-- Python `pathlib.Path(p).name`: the last path component, with empty and
`.` components dropped ("" for an empty or root path). -/
def pathName (p : String) : String :=
  match ((p.splitOn "/").filter (fun c => c ≠ "" ∧ c ≠ ".")).getLast? with
  | some s => s
  | none => ""

/-- `StateManager.get_status_summary`: loads and renders the state
(`now` is the clock value `duration_str` would read). -/
def StateManager.get_status_summary (now : Int) (fs : FileSys) :
    Except PyErr String := do
  let state ← StateManager.load fs
  if state.session_id = "" then
    return "No active session"
  let status_icon := if state.is_active then "Active" else "Ended"
  let lines : List String :=
    ["Session: " ++ state.session_id.take 8,
     "Project: " ++
       (if state.project_dir ≠ "" then pathName state.project_dir else "N/A"),
     "Status: " ++ status_icon,
     "Duration: " ++ state.duration_str now,
     "Tools: " ++ toString state.successful_tools ++ "/" ++
       toString state.total_tools,
     "Errors: " ++ toString state.failed_tools]
  let lines :=
    match state.current_tool with
    | some ct => lines ++ ["Current: " ++ ct.name]
    | none => lines
  return String.intercalate "\n" lines

/-- One mutating `StateManager` call with its inputs (clock readings
included as arguments, per the module conventions). -/
inductive Op : Type where
  | startSession (session_id project_dir : String) (now : Int) : Op
  | endSession (reason : String) (now : Int) : Op
  | startTool (tool_name : String) (tool_input : List (String × JValue))
      (now : Int) : Op
  | endTool (tool_name : String) (success : Bool) (output : String)
      (now : Int) (clock : String) : Op

/-- Dispatch one operation against the file system. -/
def runOp (fs : FileSys) : Op → Except PyErr (SessionState × FileSys)
  | .startSession sid pdir now => StateManager.start_session sid pdir now fs
  | .endSession reason now => StateManager.end_session reason now fs
  | .startTool n i now => StateManager.start_tool n i now fs
  | .endTool n ok out now clk => StateManager.end_tool n ok out now clk fs

/-- Run a sequence of operations, threading the file system and the state
returned by the last call (each call re-reads the store, as each Python
hook invocation is a fresh process). -/
def runOps (fs : FileSys) (s : SessionState) :
    List Op → Except PyErr (SessionState × FileSys)
  | [] => .ok (s, fs)
  | op :: rest => do
      let r ← runOp fs op
      runOps r.2 r.1 rest

/-- The arguments of one `end_tool` call. -/
structure EndCall : Type where
  tool_name : String
  success : Bool
  output : String
  now : Int
  clock : String

/-- The `Op` of an `end_tool` call. -/
def EndCall.op (c : EndCall) : Op :=
  .endTool c.tool_name c.success c.output c.now c.clock

/-- The `recent_tools` record an `end_tool` call appends. -/
def EndCall.record (c : EndCall) : ToolRecord :=
  { name := c.tool_name, success := c.success, time := c.clock,
    output := c.output.take 100 }

/-! ### Serialization lemmas -/

/-- Decoding inverts serialization on `recent_tools` entries. -/
theorem decRecentList_map (rs : List ToolRecord) :
    decRecentList (rs.map ToolRecord.toJ) = some rs := by
  induction rs with
  | nil => rfl
  | cons r rest ih =>
      simp [decRecentList, decToolRecord, ToolRecord.toJ, ih]

/-- Decoding inverts serialization: `from_dict (to_dict s)` recovers `s`. -/
theorem from_dict_to_dict (s : SessionState) :
    SessionState.from_dict s.to_dict = .ok s := by
  cases s with
  | mk sid pdir st et ia tt sut ft ct rt lu =>
      cases et <;> cases ct <;>
        simp [SessionState.from_dict, SessionState.to_dict, buildState,
              getField, jLookup, fieldNames, optIntToJ, optCurrentToolToJ,
              CurrentTool.toJ, decStr, decInt, decOptInt, decBool,
              decCurrentTool, decRecent, decRecentList_map]

/-- Loading a store that holds a serialized state recovers that state. -/
theorem load_to_dict (s : SessionState) (w : Bool) :
    StateManager.load ⟨.json s.to_dict, w⟩ = .ok s := by
  simp [StateManager.load, from_dict_to_dict]

/-! ### StateManager operation lemmas -/

/-- `save` on a writable file system: the state written and returned. -/
theorem save_writable (state : SessionState) (now : Int) (fs : FileSys)
    (hw : fs.writable = true) :
    StateManager.save state now fs =
      .ok ({ state with last_update := now },
           { fs with store := .json (SessionState.to_dict
               { state with last_update := now }) }) := by
  simp [StateManager.save, hw]

/-- Monad-level reduction for `Except` binds as produced by `do` blocks. -/
theorem exc_bind_ok {α β : Type} (a : α) (f : α → Except PyErr β) :
    (Except.ok a >>= f) = f a := rfl

/-- Monad-level reduction for `Except` binds on the error branch. -/
theorem exc_bind_error {α β : Type} (e : PyErr) (f : α → Except PyErr β) :
    ((Except.error e : Except PyErr α) >>= f) = .error e := rfl

/-- `save` succeeds only on a writable file system, and then its result is
the `last_update`-stamped state together with the store overwritten by its
serialization. -/
theorem save_ok_elim (state : SessionState) (now : Int) (fs : FileSys)
    (s' : SessionState) (fs' : FileSys)
    (h : StateManager.save state now fs = .ok (s', fs')) :
    fs.writable = true ∧ s' = { state with last_update := now } ∧
      fs' = { fs with store := .json s'.to_dict } := by
  unfold StateManager.save at h
  by_cases hw : fs.writable
  · simp only [hw, if_true, Except.ok.injEq, Prod.mk.injEq] at h
    obtain ⟨hs, hfs⟩ := h
    subst hs
    subst hfs
    exact ⟨hw, rfl, by rw [hw]⟩
  · simp [hw] at h

/-- `load` depends only on the store, not on writability. -/
theorem load_of_store (fs : FileSys) (s : SessionState)
    (hg : fs.store = .json s.to_dict) :
    StateManager.load fs = .ok s := by
  cases fs with
  | mk store w =>
      cases hg
      exact load_to_dict s w

/-- The pure state transition each mutating operation performs, given the
state the operation's `load` returns (`start_session` ignores it). -/
def applyOp (op : Op) (s : SessionState) : SessionState :=
  match op with
  | .startSession sid pdir now =>
      { session_id := sid,
        project_dir := pdir,
        start_time := now,
        is_active := true,
        total_tools := 0,
        successful_tools := 0,
        failed_tools := 0,
        recent_tools := [],
        last_update := now }
  | .endSession _ now =>
      { s with
        is_active := false,
        end_time := some now,
        current_tool := none,
        last_update := now }
  | .startTool n i now =>
      { s with
        current_tool := some ⟨n, i, now⟩,
        last_update := now }
  | .endTool n ok out now clk =>
      let s1 := { s with total_tools := s.total_tools + 1 }
      let s2 :=
        if ok then { s1 with successful_tools := s1.successful_tools + 1 }
        else { s1 with failed_tools := s1.failed_tools + 1 }
      { s2 with
        recent_tools :=
          lastN 10 (s2.recent_tools ++ [⟨n, ok, clk, out.take 100⟩]),
        current_tool := none,
        last_update := now }

/-- Folding the pure transitions over an operation sequence. -/
def applyOps (ops : List Op) (s : SessionState) : SessionState :=
  ops.foldl (fun s op => applyOp op s) s

/-- Bridge: when the store holds the serialization of `s`, a successful
`runOp` returns exactly the pure transition of `s`, and leaves the store
holding the serialization of its result. -/
theorem runOp_good (s : SessionState) (fs : FileSys) (op : Op)
    (hg : fs.store = .json s.to_dict) (s' : SessionState) (fs' : FileSys)
    (h : runOp fs op = .ok (s', fs')) :
    s' = applyOp op s ∧ fs'.store = .json s'.to_dict := by
  have hload := load_of_store fs s hg
  cases op with
  | startSession sid pdir now =>
      simp only [runOp, StateManager.start_session] at h
      obtain ⟨hw, hs, hfs⟩ := save_ok_elim _ _ _ _ _ h
      subst hs hfs
      exact ⟨rfl, rfl⟩
  | endSession reason now =>
      simp only [runOp, StateManager.end_session, hload, exc_bind_ok] at h
      obtain ⟨hw, hs, hfs⟩ := save_ok_elim _ _ _ _ _ h
      subst hs hfs
      exact ⟨rfl, rfl⟩
  | startTool n i now =>
      simp only [runOp, StateManager.start_tool, hload, exc_bind_ok] at h
      obtain ⟨hw, hs, hfs⟩ := save_ok_elim _ _ _ _ _ h
      subst hs hfs
      exact ⟨rfl, rfl⟩
  | endTool n ok out now clk =>
      simp only [runOp, StateManager.end_tool, hload, exc_bind_ok] at h
      obtain ⟨hw, hs, hfs⟩ := save_ok_elim _ _ _ _ _ h
      subst hs hfs
      exact ⟨rfl, rfl⟩

/-- Bridge for sequences: a successful `runOps` from a store holding the
serialization of `s` computes `applyOps`. -/
theorem runOps_good (ops : List Op) (fs : FileSys) (s : SessionState)
    (hg : fs.store = .json s.to_dict) (s' : SessionState) (fs' : FileSys)
    (h : runOps fs s ops = .ok (s', fs')) :
    s' = applyOps ops s ∧ fs'.store = .json s'.to_dict := by
  induction ops generalizing fs s with
  | nil =>
      have h' : (s, fs) = (s', fs') := Except.ok.inj h
      injection h' with hs hfs
      subst hs
      subst hfs
      exact ⟨rfl, hg⟩
  | cons op rest ih =>
      simp only [runOps] at h
      cases hr : runOp fs op with
      | error e =>
          rw [hr] at h
          simp only [exc_bind_error] at h
          exact Except.noConfusion h
      | ok r =>
          obtain ⟨r1, r2⟩ := r
          rw [hr] at h
          simp only [exc_bind_ok] at h
          obtain ⟨h1, h2⟩ := runOp_good s fs op hg r1 r2 hr
          obtain ⟨h3, h4⟩ := ih r2 r1 h2 h
          subst h1
          exact ⟨h3, h4⟩

/-! ### Pure-layer lemmas -/

/-- `lastN` is `List.rtake`. -/
theorem lastN_eq_rtake {α : Type} (n : Nat) (xs : List α) :
    lastN n xs = xs.rtake n := rfl

/-- `lastN` as reversed take of the reversal. -/
theorem lastN_reverse_take {α : Type} (n : Nat) (xs : List α) :
    lastN n xs = (xs.reverse.take n).reverse :=
  List.rtake_eq_reverse_take_reverse xs n

/-- The length of `lastN`. -/
theorem length_lastN {α : Type} (n : Nat) (xs : List α) :
    (lastN n xs).length = min xs.length n := by
  simp only [lastN, List.length_drop]
  omega

/-- A list not longer than `n` is kept whole by `lastN n` (Python's
`lst[-n:]`). -/
theorem lastN_of_le {α : Type} (n : Nat) (xs : List α) (h : xs.length ≤ n) :
    lastN n xs = xs := by
  simp [lastN, Nat.sub_eq_zero_of_le h]

/-- Truncating the front of a prefix does not change a bounded suffix. -/
theorem take_take_append {α : Type} (n : Nat) (c d : List α) :
    (c ++ d.take n).take n = (c ++ d).take n := by
  rw [List.take_append_eq_append_take, List.take_append_eq_append_take,
      List.take_take, Nat.min_eq_left (Nat.sub_le n c.length)]

/-- Evicting before appending agrees with evicting at the end. -/
theorem lastN_lastN_append {α : Type} (n : Nat) (xs ys : List α) :
    lastN n (lastN n xs ++ ys) = lastN n (xs ++ ys) := by
  simp only [lastN_reverse_take, List.reverse_append, List.reverse_reverse]
  rw [take_take_append]

/-- A member of `lastN` is a member of the list. -/
theorem mem_of_mem_lastN {α : Type} (n : Nat) (xs : List α) (a : α)
    (h : a ∈ lastN n xs) : a ∈ xs := by
  simp only [lastN] at h
  exact List.mem_of_mem_drop h

/-- Truncation bound of Python's `output[:100]`, for any character count. -/
theorem string_take_length_le (s : String) (n : Nat) :
    (s.take n).length ≤ n := by
  rw [String.take_eq]
  show (s.1.take n).length ≤ n
  simp [List.length_take]

/-- The counter invariant of the specification. -/
def counterInv (s : SessionState) : Prop :=
  s.total_tools = s.successful_tools + s.failed_tools ∧
    0 ≤ s.successful_tools ∧ 0 ≤ s.failed_tools

/-- Every pure transition preserves the counter invariant. -/
theorem applyOp_counterInv (op : Op) (s : SessionState) (h : counterInv s) :
    counterInv (applyOp op s) := by
  obtain ⟨h1, h2, h3⟩ := h
  cases op with
  | startSession sid pdir now => simp [applyOp, counterInv]
  | endSession r now => exact ⟨h1, h2, h3⟩
  | startTool n i now => exact ⟨h1, h2, h3⟩
  | endTool n ok out now clk =>
      cases ok <;> simp [applyOp, counterInv] <;> omega

/-- Pure transition sequences preserve the counter invariant. -/
theorem applyOps_counterInv (ops : List Op) (s : SessionState)
    (h : counterInv s) : counterInv (applyOps ops s) := by
  induction ops generalizing s with
  | nil => exact h
  | cons op rest ih => exact ih (applyOp op s) (applyOp_counterInv op s h)

/-- The `current_tool` value an operation leaves behind: set by
`start_tool`, cleared by every other operation. -/
def opCT : Op → Option CurrentTool
  | .startTool n i now => some ⟨n, i, now⟩
  | _ => none

/-- The `current_tool` value after a sequence: that of its last operation
(`none` for the empty sequence, matching the state after `start_session`). -/
def finalCT (ops : List Op) : Option CurrentTool :=
  (ops.getLast?).elim none opCT

/-- Each pure transition determines `current_tool` outright. -/
theorem applyOp_current (op : Op) (s : SessionState) :
    (applyOp op s).current_tool = opCT op := by
  cases op with
  | startSession sid pdir now => rfl
  | endSession r now => rfl
  | startTool n i now => rfl
  | endTool n ok out now clk => cases ok <;> rfl

/-- `current_tool` after a pure transition sequence. -/
theorem applyOps_current (ops : List Op) (s : SessionState) :
    (applyOps ops s).current_tool =
      (ops.getLast?).elim s.current_tool opCT := by
  induction ops generalizing s with
  | nil => rfl
  | cons op rest ih =>
      cases rest with
      | nil =>
          show (applyOp op s).current_tool = _
          rw [applyOp_current]
          rfl
      | cons op2 t =>
          rw [List.getLast?_cons_cons]
          show (applyOps (op2 :: t) (applyOp op s)).current_tool = _
          rw [ih (applyOp op s)]
          cases hg : (op2 :: t).getLast? with
          | none =>
              rw [List.getLast?_eq_none_iff] at hg
              exact List.noConfusion hg
          | some o => rfl

/-- The `recent_tools` updates of an `endTool` transition do not depend on
the success flag's counter branch. -/
theorem applyOp_endTool_recent (n : String) (ok : Bool) (out : String)
    (now : Int) (clk : String) (s : SessionState) :
    (applyOp (.endTool n ok out now clk) s).recent_tools =
      lastN 10 (s.recent_tools ++ [⟨n, ok, clk, out.take 100⟩]) := by
  cases ok <;> rfl

/-- `recent_tools` after a pure sequence of `end_tool` transitions: the
last ten of the accumulated records, in insertion order. -/
theorem applyOps_endCalls_recent (cs : List EndCall) (s : SessionState)
    (h : s.recent_tools.length ≤ 10) :
    (applyOps (cs.map EndCall.op) s).recent_tools =
      lastN 10 (s.recent_tools ++ cs.map EndCall.record) := by
  induction cs generalizing s with
  | nil =>
      simp only [List.map_nil, List.append_nil]
      exact (lastN_of_le 10 s.recent_tools h).symm
  | cons c rest ih =>
      have hstep : (applyOp c.op s).recent_tools =
          lastN 10 (s.recent_tools ++ [c.record]) :=
        applyOp_endTool_recent c.tool_name c.success c.output c.now c.clock s
      have hlen : (applyOp c.op s).recent_tools.length ≤ 10 := by
        rw [hstep, length_lastN]
        omega
      show (applyOps (rest.map EndCall.op) (applyOp c.op s)).recent_tools = _
      rw [ih (applyOp c.op s) hlen, hstep, lastN_lastN_append,
          List.append_assoc]
      rfl

/-- The `start_session` head of a sequence: it ignores the prior store
entirely and establishes a freshly serialized store. -/
theorem runOp_startSession_ok (fs : FileSys) (sid pdir : String) (now : Int)
    (s' : SessionState) (fs' : FileSys)
    (h : runOp fs (.startSession sid pdir now) = .ok (s', fs')) :
    s' = applyOp (.startSession sid pdir now) {} ∧
      fs'.store = .json s'.to_dict := by
  simp only [runOp, StateManager.start_session] at h
  obtain ⟨hw, hs, hfs⟩ := save_ok_elim _ _ _ _ _ h
  subst hs
  subst hfs
  exact ⟨rfl, rfl⟩

/-- A successful run that starts with `start_session` computes the pure
transition fold from the fresh session state, regardless of the initial
store contents. -/
theorem runOps_startSession (fs : FileSys) (sid pdir : String) (t : Int)
    (ops : List Op) (s : SessionState) (fs' : FileSys)
    (h : runOps fs {} (Op.startSession sid pdir t :: ops) = .ok (s, fs')) :
    s = applyOps ops (applyOp (.startSession sid pdir t) {}) := by
  simp only [runOps] at h
  cases hr : runOp fs (.startSession sid pdir t) with
  | error e =>
      rw [hr] at h
      simp only [exc_bind_error] at h
      exact Except.noConfusion h
  | ok r =>
      obtain ⟨r1, r2⟩ := r
      rw [hr] at h
      simp only [exc_bind_ok] at h
      obtain ⟨h1, h2⟩ := runOp_startSession_ok fs sid pdir t r1 r2 hr
      obtain ⟨h3, _⟩ := runOps_good ops r2 r1 h2 s fs' h
      subst h1
      exact h3

/-! ### Claim support lemmas -/

/-- JSON of the wrong shape for `from_dict`: not an object, or an object
with a key that is not a dataclass field. -/
def wrongShape : JValue → Prop
  | .obj kvs => ∃ kv ∈ kvs, kv.1 ∉ fieldNames
  | _ => True

/-- Unfolding of `from_dict` on an object. -/
theorem from_dict_obj (kvs : List (String × JValue)) :
    SessionState.from_dict (.obj kvs) =
      if ((kvs.map Prod.fst).all fun k => fieldNames.contains k) = true then
        match buildState kvs with
        | some s => Except.ok s
        | none => Except.error PyErr.outsideModel
      else Except.error PyErr.typeError := rfl

/-- Wrong-shape JSON makes `from_dict` raise `TypeError`. -/
theorem from_dict_wrongShape (v : JValue) (h : wrongShape v) :
    SessionState.from_dict v = .error .typeError := by
  cases v with
  | obj kvs =>
      obtain ⟨kv, hmem, hnot⟩ := h
      have hall :
          ((kvs.map Prod.fst).all (fun k => fieldNames.contains k)) = false := by
        rw [List.all_eq_false]
        refine ⟨kv.1, List.mem_map_of_mem Prod.fst hmem, ?_⟩
        simpa using hnot
      rw [from_dict_obj, hall]
      simp
  | null => rfl
  | bool b => rfl
  | num n => rfl
  | str s => rfl
  | arr xs => rfl

/-- The store conditions on which `load` completes without raising and
this embedding models the result: an absent store, bytes failing JSON
parsing, wrong-shape JSON (degrading to the fresh default), or JSON
decoding to a state of the declared field types. -/
def modelledStore (fs : FileSys) : Prop :=
  fs.store = .absent ∨ fs.store = .invalidJson ∨
    (∃ v, fs.store = .json v ∧ wrongShape v) ∨
    (∃ v s, fs.store = .json v ∧ SessionState.from_dict v = .ok s)

/-- `load` succeeds on every modelled store condition. -/
theorem load_ok_of_modelled (fs : FileSys) (h : modelledStore fs) :
    ∃ s, StateManager.load fs = .ok s := by
  rcases h with h | h | ⟨v, hv, hws⟩ | ⟨v, s, hv, hok⟩
  · exact ⟨{}, by simp [StateManager.load, h]⟩
  · exact ⟨{}, by simp [StateManager.load, h]⟩
  · exact ⟨{}, by simp [StateManager.load, hv, from_dict_wrongShape v hws]⟩
  · exact ⟨s, by simp [StateManager.load, hv, hok]⟩

/-! ### Claims -/

/-- C1 (amended).  `load()` never raises and returns the zero-valued
default state (`session_id == ""`, `is_active == false`, all counters `0`,
`recent_tools` empty) when the store is absent, when its bytes fail JSON
parsing, or when it holds JSON of the wrong shape (a non-object, or an
object with a key that is not a `SessionState` field).  The
counterexample shows the claim's further cases fail: an unreadable file
propagates `OSError`, and non-UTF-8 bytes propagate `UnicodeDecodeError`,
because `load` catches only `json.JSONDecodeError` and `TypeError`. -/
theorem claim_C1 (fs : FileSys)
    (h : fs.store = .absent ∨ fs.store = .invalidJson ∨
         ∃ v, fs.store = .json v ∧ wrongShape v) :
    ∃ s, StateManager.load fs = .ok s ∧ s.session_id = "" ∧
      s.is_active = false ∧ s.total_tools = 0 ∧ s.successful_tools = 0 ∧
      s.failed_tools = 0 ∧ s.recent_tools = [] := by
  refine ⟨{}, ?_, rfl, rfl, rfl, rfl, rfl, rfl⟩
  rcases h with h | h | ⟨v, hv, hws⟩
  · simp [StateManager.load, h]
  · simp [StateManager.load, h]
  · simp [StateManager.load, hv, from_dict_wrongShape v hws]

/-- C1 counterexample: with the store file unreadable, `load()` raises
`OSError` instead of returning the default state; with non-UTF-8 bytes it
raises `UnicodeDecodeError`. -/
theorem claim_C1_cex :
    StateManager.load ⟨Store.unreadable, true⟩ = .error PyErr.osError ∧
      StateManager.load ⟨Store.invalidUtf8, true⟩ =
        .error PyErr.unicodeDecodeError :=
  ⟨rfl, rfl⟩

/-- C1 witness: the amended claim at the concrete store holding non-JSON
garbage (parse failure). -/
theorem claim_C1_witness :
    ((⟨Store.invalidJson, true⟩ : FileSys).store = Store.absent ∨
     (⟨Store.invalidJson, true⟩ : FileSys).store = Store.invalidJson ∨
     ∃ v, (⟨Store.invalidJson, true⟩ : FileSys).store = Store.json v ∧
       wrongShape v) ∧
    (∃ s, StateManager.load ⟨Store.invalidJson, true⟩ = .ok s ∧
      s.session_id = "" ∧ s.is_active = false ∧ s.total_tools = 0 ∧
      s.successful_tools = 0 ∧ s.failed_tools = 0 ∧ s.recent_tools = []) :=
  ⟨Or.inr (Or.inl rfl),
   claim_C1 ⟨Store.invalidJson, true⟩ (Or.inr (Or.inl rfl))⟩

/-- C2 (amended).  Every `StateManager` operation (`start_session`,
`end_session`, `start_tool`, `end_tool`, `get_status_summary`) returns
without raising whenever the store path is writable and the store is in a
modelled no-raise condition: absent, bytes failing JSON parsing (degrading
to a fresh default state), wrong-shape JSON — a non-object, or an object
with a key that is not a `SessionState` field — (likewise degrading), or
JSON carrying values of the declared field types.  The counterexample
shows the original universal claim fails: an OS-level read or write
failure is caught by no operation and propagates to the caller.  A store
holding a valid-key object with an ill-typed value is excluded as well:
Python loads it unvalidated (the dataclass does no type checks), and the
mutators then behave value-dependently — e.g. with `total_tools` stored as
`null`, `end_tool` raises an uncaught `TypeError` at `total_tools += 1`
while `end_session` and `start_tool` succeed; that path lies outside this
typed embedding (see `PyErr.outsideModel`) and no success is claimed
there. -/
theorem claim_C2 (fs : FileSys) (hw : fs.writable = true)
    (hm : modelledStore fs)
    (sid pdir reason tname out clk : String)
    (tinput : List (String × JValue)) (ok : Bool) (now : Int) :
    (∃ r, StateManager.start_session sid pdir now fs = .ok r) ∧
    (∃ r, StateManager.end_session reason now fs = .ok r) ∧
    (∃ r, StateManager.start_tool tname tinput now fs = .ok r) ∧
    (∃ r, StateManager.end_tool tname ok out now clk fs = .ok r) ∧
    (∃ t, StateManager.get_status_summary now fs = .ok t) := by
  obtain ⟨s, hl⟩ := load_ok_of_modelled fs hm
  refine ⟨?_, ?_, ?_, ?_, ?_⟩
  · exact ⟨_, by
      unfold StateManager.start_session
      exact save_writable _ now fs hw⟩
  · exact ⟨_, by
      simp only [StateManager.end_session, hl, exc_bind_ok]
      exact save_writable _ now fs hw⟩
  · exact ⟨_, by
      simp only [StateManager.start_tool, hl, exc_bind_ok]
      exact save_writable _ now fs hw⟩
  · exact ⟨_, by
      simp only [StateManager.end_tool, hl, exc_bind_ok]
      exact save_writable _ now fs hw⟩
  · simp only [StateManager.get_status_summary, hl, exc_bind_ok]
    split
    · exact ⟨_, rfl⟩
    · exact ⟨_, rfl⟩

/-- C2 counterexample: `end_tool` on an unreadable store raises `OSError`
(the uncaught `open` failure inside `load`), and `start_session` on an
unwritable store path raises `OSError` from `save`; neither degrades to a
fresh state. -/
theorem claim_C2_cex :
    StateManager.end_tool "Bash" true "ok" 0 "12:00:00"
        ⟨Store.unreadable, true⟩ = .error PyErr.osError ∧
      StateManager.start_session "abc" "/p" 0 ⟨Store.absent, false⟩ =
        .error PyErr.osError :=
  ⟨rfl, rfl⟩

/-- C2 witness: the amended claim at a concrete writable file system whose
store holds non-JSON garbage. -/
theorem claim_C2_witness :
    ((⟨Store.invalidJson, true⟩ : FileSys).writable = true ∧
     modelledStore ⟨Store.invalidJson, true⟩) ∧
    ((∃ r, StateManager.start_session "abc123" "/proj" 5
        ⟨Store.invalidJson, true⟩ = .ok r) ∧
     (∃ r, StateManager.end_session "completed" 5
        ⟨Store.invalidJson, true⟩ = .ok r) ∧
     (∃ r, StateManager.start_tool "Bash" [] 5
        ⟨Store.invalidJson, true⟩ = .ok r) ∧
     (∃ r, StateManager.end_tool "Bash" true "ok" 5 "12:00:00"
        ⟨Store.invalidJson, true⟩ = .ok r) ∧
     (∃ t, StateManager.get_status_summary 5
        ⟨Store.invalidJson, true⟩ = .ok t)) :=
  ⟨⟨rfl, Or.inr (Or.inl rfl)⟩,
   claim_C2 ⟨Store.invalidJson, true⟩ rfl (Or.inr (Or.inl rfl))
     "abc123" "/proj" "completed" "Bash" "ok" "12:00:00" [] true 5⟩

/-- C3 (confirmed).  After any successful sequence of `StateManager`
operations beginning with `start_session` — in particular after each
`end_tool` call — the returned state satisfies
`total_tools = successful_tools + failed_tools`, and all three counters
are non-negative. -/
theorem claim_C3 (fs : FileSys) (sid pdir : String) (t : Int) (ops : List Op)
    (s : SessionState) (fs' : FileSys)
    (h : runOps fs {} (Op.startSession sid pdir t :: ops) = .ok (s, fs')) :
    s.total_tools = s.successful_tools + s.failed_tools ∧
      0 ≤ s.total_tools ∧ 0 ≤ s.successful_tools ∧ 0 ≤ s.failed_tools := by
  have hs := runOps_startSession fs sid pdir t ops s fs' h
  have hinv : counterInv (applyOp (.startSession sid pdir t) {}) :=
    ⟨rfl, le_refl 0, le_refl 0⟩
  have hfin := applyOps_counterInv ops _ hinv
  rw [← hs] at hfin
  obtain ⟨h1, h2, h3⟩ := hfin
  exact ⟨h1, by omega, h2, h3⟩

/-- The final state of the C3 witness run. -/
def c3State : SessionState :=
  { session_id := "s", project_dir := "/p", start_time := 1,
    is_active := true, total_tools := 1, successful_tools := 1,
    failed_tools := 0, recent_tools := [⟨"Bash", true, "c", "ok"⟩],
    last_update := 2 }

set_option maxRecDepth 40000 in
/-- C3 witness: a concrete `start_session` then `end_tool` run. -/
theorem claim_C3_witness :
    runOps ⟨Store.absent, true⟩ {}
        [Op.startSession "s" "/p" 1, Op.endTool "Bash" true "ok" 2 "c"] =
      .ok (c3State, ⟨.json c3State.to_dict, true⟩) ∧
    (c3State.total_tools = c3State.successful_tools + c3State.failed_tools ∧
      0 ≤ c3State.total_tools ∧ 0 ≤ c3State.successful_tools ∧
      0 ≤ c3State.failed_tools) := by
  have h : runOps ⟨Store.absent, true⟩ {}
      [Op.startSession "s" "/p" 1, Op.endTool "Bash" true "ok" 2 "c"] =
      .ok (c3State, ⟨.json c3State.to_dict, true⟩) := by rfl
  exact ⟨h, claim_C3 _ _ _ _ _ _ _ h⟩

/-- C4 (confirmed).  After `start_session` followed by any sequence of
`end_tool` calls, `recent_tools` is exactly the last ten of the appended
records in chronological (insertion) order — so its length is
`min N 10`: always at most 10, and exactly 10 once `N ≥ 11`, holding the
10 most recent records — and every record's `output` field is truncated
to at most 100 characters. -/
theorem claim_C4 (fs : FileSys) (sid pdir : String) (t : Int)
    (calls : List EndCall) (s : SessionState) (fs' : FileSys)
    (h : runOps fs {} (Op.startSession sid pdir t :: calls.map EndCall.op) =
      .ok (s, fs')) :
    s.recent_tools = lastN 10 (calls.map EndCall.record) ∧
      s.recent_tools.length = min calls.length 10 ∧
      s.recent_tools.length ≤ 10 ∧
      (11 ≤ calls.length → s.recent_tools.length = 10) ∧
      (∀ r ∈ s.recent_tools, r.output.length ≤ 100) := by
  have hs := runOps_startSession fs sid pdir t _ s fs' h
  have hrec := applyOps_endCalls_recent calls
    (applyOp (.startSession sid pdir t) {}) (Nat.zero_le 10)
  have hnil : (applyOp (.startSession sid pdir t) {}).recent_tools =
      ([] : List ToolRecord) := rfl
  rw [hnil, List.nil_append] at hrec
  rw [hs, hrec]
  have hlen : (lastN 10 (calls.map EndCall.record)).length =
      min calls.length 10 := by
    rw [length_lastN, List.length_map]
  refine ⟨rfl, hlen, by omega, by omega, ?_⟩
  intro r hr
  have hr2 := mem_of_mem_lastN 10 _ r hr
  obtain ⟨c, _, hc⟩ := List.mem_map.mp hr2
  have hout : r.output = c.output.take 100 := by
    rw [← hc]
    unfold EndCall.record
    simp
  rw [hout]
  exact string_take_length_le c.output 100

/-- The eleven identical `end_tool` calls of the C4 witness. -/
def c4Calls : List EndCall :=
  List.replicate 11 ⟨"t", true, "o", 2, "c"⟩

/-- The final state of the C4 witness run. -/
def c4State : SessionState :=
  { session_id := "s", project_dir := "/p", start_time := 1,
    is_active := true, total_tools := 11, successful_tools := 11,
    failed_tools := 0,
    recent_tools := List.replicate 10 ⟨"t", true, "c", "o"⟩,
    last_update := 2 }

set_option maxRecDepth 40000 in
/-- C4 witness: a concrete run with eleven `end_tool` calls, leaving
exactly ten records. -/
theorem claim_C4_witness :
    runOps ⟨Store.absent, true⟩ {}
        (Op.startSession "s" "/p" 1 :: c4Calls.map EndCall.op) =
      .ok (c4State, ⟨.json c4State.to_dict, true⟩) ∧
    c4State.recent_tools = lastN 10 (c4Calls.map EndCall.record) ∧
    c4State.recent_tools.length = min c4Calls.length 10 ∧
    c4State.recent_tools.length ≤ 10 ∧
    (11 ≤ c4Calls.length → c4State.recent_tools.length = 10) := by
  have h : runOps ⟨Store.absent, true⟩ {}
      (Op.startSession "s" "/p" 1 :: c4Calls.map EndCall.op) =
      .ok (c4State, ⟨.json c4State.to_dict, true⟩) := by rfl
  have hc := claim_C4 _ _ _ _ _ _ _ h
  exact ⟨h, hc.1, hc.2.1, hc.2.2.1, hc.2.2.2.1⟩

/-- C8 (confirmed).  In every state reachable by a successful operation
sequence from `start_session`, `current_tool` is the value left by the
last operation: `some {name, input, start_time}` exactly when that
operation is a `start_tool`, and `none` otherwise — `start_session`,
`end_tool` and `end_session` all clear it, and only `start_tool` sets
it. -/
theorem claim_C8 (fs : FileSys) (sid pdir : String) (t : Int) (ops : List Op)
    (s : SessionState) (fs' : FileSys)
    (h : runOps fs {} (Op.startSession sid pdir t :: ops) = .ok (s, fs')) :
    s.current_tool = finalCT ops := by
  have hs := runOps_startSession fs sid pdir t ops s fs' h
  rw [hs, applyOps_current]
  cases hg : ops.getLast? with
  | none => simp only [finalCT, hg, Option.elim_none]; rfl
  | some op => simp only [finalCT, hg, Option.elim_some]

set_option maxRecDepth 40000 in
/-- C8 witness: a run ending in `start_tool` has that tool current. -/
theorem claim_C8_witness :
    runOps ⟨Store.absent, true⟩ {}
        [Op.startSession "s" "/p" 1, Op.startTool "Bash" [] 2] =
      .ok ({ session_id := "s", project_dir := "/p", start_time := 1,
             is_active := true, current_tool := some ⟨"Bash", [], 2⟩,
             last_update := 2 },
           ⟨.json (SessionState.to_dict
             { session_id := "s", project_dir := "/p", start_time := 1,
               is_active := true, current_tool := some ⟨"Bash", [], 2⟩,
               last_update := 2 }), true⟩) ∧
    (SessionState.mk "s" "/p" 1 none true 0 0 0 (some ⟨"Bash", [], 2⟩) [] 2
        ).current_tool = finalCT [Op.startTool "Bash" [] 2] := by
  have h : runOps ⟨Store.absent, true⟩ {}
      [Op.startSession "s" "/p" 1, Op.startTool "Bash" [] 2] =
      .ok ({ session_id := "s", project_dir := "/p", start_time := 1,
             is_active := true, current_tool := some ⟨"Bash", [], 2⟩,
             last_update := 2 },
           ⟨.json (SessionState.to_dict
             { session_id := "s", project_dir := "/p", start_time := 1,
               is_active := true, current_tool := some ⟨"Bash", [], 2⟩,
               last_update := 2 }), true⟩) := by rfl
  exact ⟨h, claim_C8 _ _ _ _ _ _ _ h⟩

/-- C5 (confirmed).  `save` then `load` round-trips: the loaded state is
the saved one field for field, except `last_update`, which `save` sets to
the write-time clock immediately before writing. -/
theorem claim_C5 (s : SessionState) (now : Int) (fs : FileSys)
    (hw : fs.writable = true) :
    ∃ s2 fs2, StateManager.save s now fs = .ok (s2, fs2) ∧
      StateManager.load fs2 = .ok s2 ∧
      s2.session_id = s.session_id ∧ s2.project_dir = s.project_dir ∧
      s2.start_time = s.start_time ∧ s2.end_time = s.end_time ∧
      s2.is_active = s.is_active ∧ s2.total_tools = s.total_tools ∧
      s2.successful_tools = s.successful_tools ∧
      s2.failed_tools = s.failed_tools ∧
      s2.current_tool = s.current_tool ∧
      s2.recent_tools = s.recent_tools ∧ s2.last_update = now := by
  exact ⟨{ s with last_update := now }, _, save_writable s now fs hw,
    load_of_store _ _ rfl, rfl, rfl, rfl, rfl, rfl, rfl, rfl, rfl, rfl, rfl,
    rfl⟩

/-- The state saved in the C5 witness. -/
def c5S : SessionState :=
  { session_id := "abc", project_dir := "/proj", start_time := 7,
    end_time := some 9, is_active := false, total_tools := 3,
    successful_tools := 2, failed_tools := 1,
    current_tool := some ⟨"B", [("k", JValue.str "v")], 8⟩,
    recent_tools := [⟨"B", false, "t", "o"⟩], last_update := 0 }

/-- C5 witness: the round-trip at a concrete fully-populated state. -/
theorem claim_C5_witness :
    (⟨Store.absent, true⟩ : FileSys).writable = true ∧
    (∃ s2 fs2, StateManager.save c5S 11 ⟨Store.absent, true⟩ = .ok (s2, fs2) ∧
      StateManager.load fs2 = .ok s2 ∧
      s2.session_id = c5S.session_id ∧ s2.project_dir = c5S.project_dir ∧
      s2.start_time = c5S.start_time ∧ s2.end_time = c5S.end_time ∧
      s2.is_active = c5S.is_active ∧ s2.total_tools = c5S.total_tools ∧
      s2.successful_tools = c5S.successful_tools ∧
      s2.failed_tools = c5S.failed_tools ∧
      s2.current_tool = c5S.current_tool ∧
      s2.recent_tools = c5S.recent_tools ∧ s2.last_update = 11) :=
  ⟨rfl, claim_C5 c5S 11 ⟨Store.absent, true⟩ rfl⟩

set_option maxRecDepth 40000 in
/-- C6 (confirmed).  From any prior store contents (any store condition at
a writable path): `start_session("abc123", "/proj")` replaces the state
entirely with a fresh one — counters 0, `is_active` true, empty
`recent_tools` — and the four-step scenario
`start_session; start_tool("Bash"); end_tool("Bash", success=true, "ok");
end_session("completed")` ends with `total_tools = 1`,
`successful_tools = 1`, `failed_tools = 0`, `is_active = false`,
`current_tool = None`. -/
theorem claim_C6 (fs : FileSys) (hw : fs.writable = true)
    (inp : List (String × JValue)) (t1 t2 t3 t4 : Int) (clk : String) :
    StateManager.start_session "abc123" "/proj" t1 fs =
      .ok (⟨"abc123", "/proj", t1, none, true, 0, 0, 0, none, [], t1⟩,
           ⟨.json (SessionState.to_dict
              ⟨"abc123", "/proj", t1, none, true, 0, 0, 0, none, [], t1⟩),
            fs.writable⟩) ∧
    (∃ s fs2,
      runOps fs {} [Op.startSession "abc123" "/proj" t1,
        Op.startTool "Bash" inp t2, Op.endTool "Bash" true "ok" t3 clk,
        Op.endSession "completed" t4] = .ok (s, fs2) ∧
      s.total_tools = 1 ∧ s.successful_tools = 1 ∧ s.failed_tools = 0 ∧
      s.is_active = false ∧ s.current_tool = none) := by
  obtain ⟨store, w⟩ := fs
  have hw2 : w = true := hw
  subst hw2
  refine ⟨rfl, ⟨"abc123", "/proj", t1, some t4, false, 1, 1, 0, none,
    [⟨"Bash", true, clk, "ok".take 100⟩], t4⟩, _, rfl, rfl, rfl, rfl, rfl,
    rfl⟩

set_option maxRecDepth 40000 in
/-- C6 witness: the scenario starting from a store holding leftover JSON
of a foreign shape. -/
theorem claim_C6_witness :
    (⟨Store.json (.obj [("bogus", JValue.null)]), true⟩ : FileSys).writable =
        true ∧
    (StateManager.start_session "abc123" "/proj" 1
        ⟨Store.json (.obj [("bogus", JValue.null)]), true⟩ =
      .ok (⟨"abc123", "/proj", 1, none, true, 0, 0, 0, none, [], 1⟩,
           ⟨.json (SessionState.to_dict
              ⟨"abc123", "/proj", 1, none, true, 0, 0, 0, none, [], 1⟩),
            (⟨Store.json (.obj [("bogus", JValue.null)]), true⟩ :
              FileSys).writable⟩) ∧
     (∃ s fs2,
       runOps ⟨Store.json (.obj [("bogus", JValue.null)]), true⟩ {}
           [Op.startSession "abc123" "/proj" 1, Op.startTool "Bash" [] 2,
            Op.endTool "Bash" true "ok" 3 "c", Op.endSession "completed" 4] =
         .ok (s, fs2) ∧
       s.total_tools = 1 ∧ s.successful_tools = 1 ∧ s.failed_tools = 0 ∧
       s.is_active = false ∧ s.current_tool = none)) :=
  ⟨rfl, claim_C6 ⟨Store.json (.obj [("bogus", JValue.null)]), true⟩ rfl
    [] 1 2 3 4 "c"⟩

/-- The effective end timestamp `duration_str` reads: Python
`end = self.end_time or time.time()` (an `end_time` of `None` or `0` falls
back to the clock). -/
def effEnd (s : SessionState) (now : Int) : Int :=
  match s.end_time with
  | some t => if t = 0 then now else t
  | none => now

/-- C7 (confirmed).  For `start_time > 0`, `duration_str` buckets the
integer duration `d = end - start_time` (with `end` the effective end
time) exactly at 60 and 3600 seconds: `d < 60` renders `"<d>s"`,
`60 ≤ d < 3600` renders `"<d / 60>m <d % 60>s"`, and `3600 ≤ d` renders
`"<d / 3600>h <d % 3600 / 60>m"`.  The witness checks the spec's
examples 45 → `"45s"`, 125 → `"2m 5s"`, 3725 → `"1h 2m"`. -/
theorem claim_C7 (s : SessionState) (now : Int) (h : 0 < s.start_time) :
    (effEnd s now - s.start_time < 60 →
      s.duration_str now =
        toString (effEnd s now - s.start_time) ++ "s") ∧
    (60 ≤ effEnd s now - s.start_time →
      effEnd s now - s.start_time < 3600 →
      s.duration_str now =
        toString ((effEnd s now - s.start_time) / 60) ++ "m " ++
          toString ((effEnd s now - s.start_time) % 60) ++ "s") ∧
    (3600 ≤ effEnd s now - s.start_time →
      s.duration_str now =
        toString ((effEnd s now - s.start_time) / 3600) ++ "h " ++
          toString ((effEnd s now - s.start_time) % 3600 / 60) ++ "m") := by
  have hne : ¬ s.start_time = 0 := by omega
  refine ⟨?_, ?_, ?_⟩
  · intro h1
    simp only [SessionState.duration_str, effEnd, hne, if_false] at h1 ⊢
    rw [if_pos h1]
  · intro h1 h2
    simp only [SessionState.duration_str, effEnd, hne, if_false] at h1 h2 ⊢
    rw [if_neg (by omega), if_pos h2]
  · intro h1
    simp only [SessionState.duration_str, effEnd, hne, if_false] at h1 ⊢
    rw [if_neg (by omega), if_neg (by omega)]

/-- C7 witness: the three bucket examples of the specification. -/
theorem claim_C7_witness :
    (0 < (SessionState.mk "x" "" 1 (some 46) false 0 0 0 none [] 0
        ).start_time ∧
      0 < (SessionState.mk "x" "" 1 (some 126) false 0 0 0 none [] 0
        ).start_time ∧
      0 < (SessionState.mk "x" "" 1 (some 3726) false 0 0 0 none [] 0
        ).start_time) ∧
    (SessionState.mk "x" "" 1 (some 46) false 0 0 0 none [] 0
      ).duration_str 0 = "45s" ∧
    (SessionState.mk "x" "" 1 (some 126) false 0 0 0 none [] 0
      ).duration_str 0 = "2m 5s" ∧
    (SessionState.mk "x" "" 1 (some 3726) false 0 0 0 none [] 0
      ).duration_str 0 = "1h 2m" := by
  refine ⟨⟨by decide, by decide, by decide⟩, ?_, ?_, ?_⟩
  · have := (claim_C7 (SessionState.mk "x" "" 1 (some 46) false 0 0 0 none
      [] 0) 0 (by decide)).1 (by decide)
    rw [this]
    decide
  · have := ((claim_C7 (SessionState.mk "x" "" 1 (some 126) false 0 0 0 none
      [] 0) 0 (by decide)).2.1) (by decide) (by decide)
    rw [this]
    decide
  · have := ((claim_C7 (SessionState.mk "x" "" 1 (some 3726) false 0 0 0 none
      [] 0) 0 (by decide)).2.2) (by decide)
    rw [this]
    decide

/-- C9 (confirmed, for values of the declared field types).  A stored JSON
object whose keys all are `SessionState` field names loads as the state
carrying the stored values with dataclass defaults for the missing fields;
a stored JSON object containing any key that is not a field name loads as
the fresh all-default state (the `TypeError` from `cls(**data)` is caught). -/
theorem claim_C9 :
    (∀ (fs : FileSys) (kvs : List (String × JValue)) (s : SessionState),
      fs.store = .json (.obj kvs) →
      ((kvs.map Prod.fst).all fun k => fieldNames.contains k) = true →
      buildState kvs = some s →
      StateManager.load fs = .ok s) ∧
    (∀ (fs : FileSys) (kvs : List (String × JValue)) (kv : String × JValue),
      fs.store = .json (.obj kvs) → kv ∈ kvs → kv.1 ∉ fieldNames →
      StateManager.load fs = .ok {}) := by
  constructor
  · intro fs kvs s hst hkeys hbuild
    have hfd : SessionState.from_dict (.obj kvs) = .ok s := by
      rw [from_dict_obj, hkeys]
      simp [hbuild]
    simp [StateManager.load, hst, hfd]
  · intro fs kvs kv hst hmem hnot
    have hfd := from_dict_wrongShape (.obj kvs) ⟨kv, hmem, hnot⟩
    simp [StateManager.load, hst, hfd]

/-- C9 witness: a two-key partial object loads with defaults for the
missing fields; a foreign-key object loads as the fresh default state. -/
theorem claim_C9_witness :
    ((([("session_id", JValue.str "abc"), ("total_tools", JValue.num 7)].map
        Prod.fst).all fun k => fieldNames.contains k) = true ∧
      buildState [("session_id", JValue.str "abc"),
        ("total_tools", JValue.num 7)] =
        some ⟨"abc", "", 0, none, false, 7, 0, 0, none, [], 0⟩ ∧
      ("bogus", JValue.null) ∈ [("bogus", JValue.null)] ∧
      ("bogus", JValue.null).1 ∉ fieldNames) ∧
    StateManager.load ⟨.json (.obj [("session_id", JValue.str "abc"),
        ("total_tools", JValue.num 7)]), true⟩ =
      .ok ⟨"abc", "", 0, none, false, 7, 0, 0, none, [], 0⟩ ∧
    StateManager.load ⟨.json (.obj [("bogus", JValue.null)]), true⟩ =
      .ok {} :=
  ⟨⟨rfl, rfl, List.Mem.head _, by decide⟩,
   claim_C9.1 ⟨.json (.obj [("session_id", JValue.str "abc"),
       ("total_tools", JValue.num 7)]), true⟩ _ _ rfl rfl rfl,
   claim_C9.2 ⟨.json (.obj [("bogus", JValue.null)]), true⟩ _
     ("bogus", JValue.null) rfl (List.Mem.head _) (by decide)⟩

/-- C10 (confirmed).  Any state with `start_time = 0` — in particular the
default state `load()` returns for an absent or JSON-corrupt store —
renders `duration_str` as the literal `"N/A"`. -/
theorem claim_C10 (s : SessionState) (now : Int) (h : s.start_time = 0) :
    s.duration_str now = "N/A" ∧
    (∀ fs : FileSys, fs.store = .absent ∨ fs.store = .invalidJson →
      ∃ s0, StateManager.load fs = .ok s0 ∧ s0.start_time = 0 ∧
        s0.duration_str now = "N/A") := by
  constructor
  · unfold SessionState.duration_str
    rw [if_pos h]
  · intro fs hfs
    refine ⟨{}, ?_, rfl, rfl⟩
    rcases hfs with h1 | h1 <;> simp [StateManager.load, h1]

/-- C10 witness: the default state at a concrete clock value. -/
theorem claim_C10_witness :
    ({} : SessionState).start_time = 0 ∧
    (({} : SessionState).duration_str 5 = "N/A" ∧
     (∀ fs : FileSys, fs.store = .absent ∨ fs.store = .invalidJson →
       ∃ s0, StateManager.load fs = .ok s0 ∧ s0.start_time = 0 ∧
         s0.duration_str 5 = "N/A")) :=
  ⟨rfl, claim_C10 {} 5 rfl⟩
